import Mathlib

/-!
Verification of the Report Normalization & Metrics Derivation Engine of the
financial-clarity repository. The definitions below are shallow embeddings of
the TypeScript source: JavaScript numbers are modelled as rationals (the
operations used — subtraction, division, Math.floor, comparison — are exact on
the inputs considered), a value that JavaScript parseFloat turns into NaN is
modelled by an explicit NaN constructor, and fallible operations (report
fetches, the narrative-generation call) are modelled as Except / explicit
result parameters.
-/

/-- A primitive JSON value sitting in a report cell: either a string or a
number. Cells that are absent are modelled as `none` at the use site. -/
inductive JsPrim where
  | str (s : String)
  | num (q : ℚ)
deriving DecidableEq

/-- Result of JavaScript numeric coercion: either NaN or a rational value. -/
inductive JsNum where
  | nan
  | val (q : ℚ)
deriving DecidableEq

/-- JavaScript addition restricted to the values occurring here: NaN is
absorbing, otherwise rational addition. -/
def JsNum.add : JsNum → JsNum → JsNum
  | .val a, .val b => .val (a + b)
  | _, _ => .nan

/-- Decimal digit characters read as a natural number. -/
def digitsToNat (l : List Char) : ℕ :=
  l.foldl (fun a c => 10 * a + (c.toNat - 48)) 0

/-- Model of JavaScript parseFloat on a string, restricted to the shapes the
reports contain: optional leading whitespace, an optional sign, decimal digits
and an optional decimal fraction. A string with no parseable prefix gives NaN,
exactly as parseFloat does. Exponents and the Infinity literal are not used by
any report fixture and are not modelled. -/
def parseFloatStr (s : String) : JsNum :=
  let cs := s.data.dropWhile Char.isWhitespace
  let signAndRest : ℤ × List Char :=
    match cs with
    | '-' :: rest => (-1, rest)
    | '+' :: rest => (1, rest)
    | _ => (1, cs)
  let intPart := signAndRest.2.takeWhile Char.isDigit
  let afterInt := signAndRest.2.dropWhile Char.isDigit
  let fracPart :=
    match afterInt with
    | '.' :: rest => rest.takeWhile Char.isDigit
    | _ => []
  if intPart = [] ∧ fracPart = [] then .nan
  else if fracPart = [] then
    .val ((signAndRest.1 * (digitsToNat intPart : ℤ) : ℤ) : ℚ)
  else
    let den : ℕ := 10 ^ fracPart.length
    let num : ℤ := signAndRest.1 * ((digitsToNat intPart * den + digitsToNat fracPart : ℕ) : ℤ)
    .val ((num : ℚ) / (den : ℚ))

/-- JavaScript parseFloat applied to a possibly-absent JSON value: an absent
value coerces to the string "undefined" and parses to NaN; a string parses by
`parseFloatStr`; a number is returned unchanged. -/
def jsParseFloat : Option JsPrim → JsNum
  | none => .nan
  | some (.str s) => parseFloatStr s
  | some (.num q) => .val q

/-- JavaScript falsiness of a possibly-absent primitive: undefined, the empty
string and the number 0 are falsy. -/
def jsFalsyPrim : Option JsPrim → Bool
  | none => true
  | some (.str s) => s = ""
  | some (.num q) => q = 0

/-- Model of the idiom parseFloat(v || '0') used by every extractor: a falsy
cell value is replaced by the string '0' before parsing, so missing and empty
values extract as 0. -/
def parseCellOrZero (v : Option JsPrim) : JsNum :=
  if jsFalsyPrim v then .val 0 else jsParseFloat v

/-- Model of the idiom (x || 0) applied to a parseFloat result: NaN and 0 are
falsy and give 0, any other value passes through. -/
def jsNumOrZero : JsNum → ℚ
  | .nan => 0
  | .val q => q

/-- Model of the idiom (content || fallback) on the narrative response content:
a null or empty content string is replaced by the fallback. -/
def jsOrDefault (content : Option String) (fallback : String) : String :=
  match content with
  | none => fallback
  | some s => if s = "" then fallback else s

/-! QuickBooks report shape (src/lib/quickbooks.ts). A report exposes
Rows.Row, each row optionally has Header.ColData (its label cells), ColData
(its value cells) and Rows.Row (child rows, used by the balance sheet). Only
the two levels the code actually traverses are modelled; the Header object and
its ColData field are collapsed into one optional list, which is
access-equivalent for the optional-chained reads the code performs. -/

/-- A QuickBooks report cell: { value?: string | number }. -/
structure QBCell where
  value : Option JsPrim
deriving DecidableEq

/-- A child row of a QuickBooks balance-sheet section: only its ColData is
read by the code. -/
structure QBChildRow where
  colData : Option (List QBCell)
deriving DecidableEq

/-- A top-level QuickBooks report row: Header.ColData, ColData, and Rows.Row
(child rows), each possibly absent. -/
structure QBTopRow where
  headerColData : Option (List QBCell)
  colData : Option (List QBCell)
  childRows : Option (List QBChildRow)
deriving DecidableEq

/-- A QuickBooks report: Rows.Row, possibly absent. -/
structure QBReport where
  rows : Option (List QBTopRow)
deriving DecidableEq

/-- The label the flat extractor compares against the target:
row.Header?.ColData?.[0]?.value. -/
def QBTopRow.headerLabel (r : QBTopRow) : Option JsPrim :=
  r.headerColData.bind fun l => (l.get? 0).bind QBCell.value

/-- The numeric cell the flat extractor returns on a match:
parseFloat(row.ColData[1]?.value || '0'). -/
def QBTopRow.rowValue (r : QBTopRow) : JsNum :=
  parseCellOrZero (((r.colData.getD []).get? 1).bind QBCell.value)

/-- The match condition of the flat extractor, line 237 of
src/lib/quickbooks.ts: row.ColData && row.Header?.ColData?.[0]?.value ===
metricName. Strict equality with a string only succeeds on a string value. -/
def qbFlatMatch (name : String) (r : QBTopRow) : Bool :=
  r.colData.isSome && decide (r.headerLabel = some (JsPrim.str name))

/-- The label of a balance-sheet child row: row.ColData?.[0]?.value. -/
def QBChildRow.childLabel (r : QBChildRow) : Option JsPrim :=
  r.colData.bind fun l => (l.get? 0).bind QBCell.value

/-- The numeric cell of a balance-sheet child row:
parseFloat(row.ColData[1]?.value || '0'). -/
def QBChildRow.childValue (r : QBChildRow) : JsNum :=
  parseCellOrZero (((r.colData.getD []).get? 1).bind QBCell.value)

/-- The match condition of the nested extractor, line 253:
row.ColData?.[0]?.value === metricName. -/
def qbChildMatch (name : String) (r : QBChildRow) : Bool :=
  decide (r.childLabel = some (JsPrim.str name))

namespace QuickBooks

/-- The for-loop of extractMetric (src/lib/quickbooks.ts lines 235-241):
return the value of the first row satisfying the match condition, else 0. -/
def extractMetricRows (name : String) : List QBTopRow → JsNum
  | [] => .val 0
  | r :: rest => if qbFlatMatch name r then r.rowValue else extractMetricRows name rest

/-- extractMetric (src/lib/quickbooks.ts lines 233-245): scan report.Rows?.Row
(absent treated as the empty array) for the first matching row; 0 when none
matches. The try/catch of the source can never fire inside this structured
model, in which traversal is total. -/
def extractMetric (report : QBReport) (metricName : String) : JsNum :=
  extractMetricRows metricName (report.rows.getD [])

/-- The inner for-loop of extractBalanceSheetMetric (lines 252-256): the first
matching child row's value, or none when the section has no match. -/
def extractBSChildRows (name : String) : List QBChildRow → Option JsNum
  | [] => none
  | r :: rest =>
    if qbChildMatch name r then some r.childValue else extractBSChildRows name rest

/-- The outer for-loop of extractBalanceSheetMetric (lines 249-258): sections
whose Rows?.Row is absent are skipped; the first section containing a matching
child row decides the result. -/
def extractBSSections (name : String) : List QBTopRow → JsNum
  | [] => .val 0
  | s :: rest =>
    match s.childRows with
    | some children =>
      match extractBSChildRows name children with
      | some v => v
      | none => extractBSSections name rest
    | none => extractBSSections name rest

/-- extractBalanceSheetMetric (src/lib/quickbooks.ts lines 247-263). -/
def extractBalanceSheetMetric (report : QBReport) (metricName : String) : JsNum :=
  extractBSSections metricName (report.rows.getD [])

end QuickBooks

/-- The flat extraction rule exactly as claim C3 words it: the numeric cell of
the first top-level row whose label is string-equal to the target, in document
order, and 0 when no row's label matches. Stated for comparison with
QuickBooks.extractMetric; note it does not require the row to carry a ColData
array in order to match. -/
def claimExtractFlat (report : QBReport) (name : String) : JsNum :=
  match (report.rows.getD []).find? (fun r => decide (r.headerLabel = some (JsPrim.str name))) with
  | some r => r.rowValue
  | none => .val 0

/-- The flat extraction rule amended to what the code does: a row matches only
when it both carries a ColData array and its header label equals the target. -/
def claimExtractFlatGuarded (report : QBReport) (name : String) : JsNum :=
  match (report.rows.getD []).find? (qbFlatMatch name) with
  | some r => r.rowValue
  | none => .val 0

/-- The nested extraction rule as claim C3 words it: the numeric cell of the
first matching child row one level deeper, first match across sections in
document order, and 0 when none matches. -/
def claimExtractNested (report : QBReport) (name : String) : JsNum :=
  match ((report.rows.getD []).flatMap fun s => s.childRows.getD []).find? (qbChildMatch name) with
  | some r => r.childValue
  | none => .val 0

/-! Xero report shape (src/unnamed/part_001, XeroClient.getFinancialData).
A report carries Reports, whose first element carries Rows, a list of
sections; a section has a Title and child Rows; a child row has Cells whose
second element's Value is the number. -/

/-- A Xero report cell: { Value?: string | number }. -/
structure XeroCell where
  value : Option JsPrim
deriving DecidableEq

/-- A Xero section child row: { Cells?: [...] }. -/
structure XeroRow where
  cells : Option (List XeroCell)
deriving DecidableEq

/-- A Xero section: { Title?, Rows? }. -/
structure XeroSection where
  title : Option JsPrim
  rows : Option (List XeroRow)
deriving DecidableEq

/-- The first element of a Xero response's Reports array: { Rows? }. -/
structure XeroReportBody where
  rows : Option (List XeroSection)
deriving DecidableEq

/-- A Xero report response: { Reports? }. -/
structure XeroReport where
  reports : Option (List XeroReportBody)
deriving DecidableEq

/-- The match condition of the Xero extractor, line 236 of part_001:
section.Title === sectionName && section.Rows. A section whose Rows field is
absent fails the condition even when its Title matches. -/
def xeroSectionMatch (name : String) (s : XeroSection) : Bool :=
  decide (s.title = some (JsPrim.str name)) && s.rows.isSome

namespace Xero

/-- The summation loop of the Xero extractor (part_001 lines 237-243): rows
with a Cells array of length at least 2 contribute
parseFloat(row.Cells[1].Value || '0') to the running total, other rows are
skipped. -/
def sumRows (rows : List XeroRow) : JsNum :=
  rows.foldl
    (fun total r =>
      match r.cells with
      | some cs =>
        if cs.length > 1 then total.add (parseCellOrZero ((cs.get? 1).bind XeroCell.value))
        else total
      | none => total)
    (JsNum.val 0)

/-- The section scan of the Xero extractor (part_001 lines 235-246): the first
section passing the match condition decides the result; 0 when none does. -/
def scanSections (name : String) : List XeroSection → JsNum
  | [] => .val 0
  | s :: rest =>
    if xeroSectionMatch name s then sumRows (s.rows.getD []) else scanSections name rest

/-- extractMetric of XeroClient.getFinancialData (part_001 lines 229-250):
an absent or empty Reports array gives 0, otherwise the first report's Rows
(absent treated as empty) are scanned. As with QuickBooks, traversal in this
structured model is total, so the try/catch of the source can never fire. -/
def extractMetric (report : XeroReport) (sectionName : String) : JsNum :=
  match report.reports.getD [] with
  | [] => .val 0
  | first :: _ => scanSections sectionName (first.rows.getD [])

end Xero

/-- The sections list the Xero extractor scans, named for theorem statements:
the first report's Rows, empty when Reports is absent or empty. -/
def xeroSections (report : XeroReport) : List XeroSection :=
  match report.reports.getD [] with
  | [] => []
  | first :: _ => first.rows.getD []

/-- A section's row total exactly as claim C4 words it: the sum of the
section's rows' second-cell values, where a row without a second cell
contributes the lenient zero. -/
def specSectionSum (s : XeroSection) : JsNum :=
  (s.rows.getD []).foldl
    (fun total r =>
      match r.cells with
      | some cs =>
        if cs.length > 1 then total.add (parseCellOrZero ((cs.get? 1).bind XeroCell.value))
        else total.add (.val 0)
      | none => total.add (.val 0))
    (JsNum.val 0)

example : parseFloatStr "1000" = .val 1000 := rfl
example : parseFloatStr "abc" = .nan := rfl
example : parseFloatStr "-42" = .val (-42) := rfl
example : parseFloatStr "42." = .val 42 := rfl
example : parseFloatStr "-2.5" = .val (-(5/2)) := by
  have h : parseFloatStr "-2.5" = .val (((-25 : ℤ) : ℚ) / ((10 : ℕ) : ℚ)) := rfl
  rw [h]; norm_num
example : parseFloatStr ".5" = .val (1/2) := by
  have h : parseFloatStr ".5" = .val (((5 : ℤ) : ℚ) / ((10 : ℕ) : ℚ)) := rfl
  rw [h]; norm_num

/-! Canonical-metrics builders. Each provider's getFinancialData awaits three
concurrent fetches with Promise.all and then extracts the metrics. The three
fetch outcomes are passed as Except values: Promise.all rejects as soon as any
input rejects, so an error input yields the corresponding error result and no
record; the model resolves the tie among several simultaneous errors by list
order, which is irrelevant to every property proved about it. -/

/-- FinancialData as built by QuickBooksClient.getFinancialData
(src/lib/quickbooks.ts lines 265-271). -/
structure QBFinancialData where
  cashBalance : JsNum
  monthlyRevenue : JsNum
  monthlyExpenses : JsNum
  profitLoss : QBReport
  balanceSheet : QBReport
deriving DecidableEq

/-- QuickBooksClient.getFinancialData (src/lib/quickbooks.ts lines 204-272):
Promise.all over current-month P&L, last-month P&L and balance sheet, then
extraction; revenue and expenses are read from the last-month P&L. -/
def QuickBooks.getFinancialData (currentPL lastMonthPL balanceSheet : Except String QBReport) :
    Except String QBFinancialData :=
  match currentPL, lastMonthPL, balanceSheet with
  | .error e, _, _ => .error e
  | .ok _, .error e, _ => .error e
  | .ok _, .ok _, .error e => .error e
  | .ok _, .ok lastPL, .ok bs =>
    .ok { cashBalance := QuickBooks.extractBalanceSheetMetric bs "Cash and cash equivalents"
          monthlyRevenue := QuickBooks.extractMetric lastPL "Total Income"
          monthlyExpenses := QuickBooks.extractMetric lastPL "Total Expenses"
          profitLoss := lastPL
          balanceSheet := bs }

/-- A Xero bank account as read by the cash total: { BankAccountBalance? }. -/
structure XeroAccount where
  bankAccountBalance : Option JsPrim
deriving DecidableEq

/-- A Xero Accounts response: { Accounts? }. -/
structure XeroAccountsResponse where
  accounts : Option (List XeroAccount)
deriving DecidableEq

/-- The cash total of XeroClient.getFinancialData (part_001 lines 253-256):
bankAccounts.Accounts?.reduce((sum, a) => sum + (parseFloat(a.BankAccountBalance) || 0), 0) || 0.
The inner (.. || 0) turns NaN into 0, so the running total stays rational;
the outer (.. || 0) maps an absent Accounts array to 0 and is the identity on
the rational total. -/
def Xero.totalCash (accounts : Option (List XeroAccount)) : ℚ :=
  match accounts with
  | none => 0
  | some l => l.foldl (fun sum account => sum + jsNumOrZero (jsParseFloat account.bankAccountBalance)) 0

/-- FinancialData as built by XeroClient.getFinancialData (part_001 lines
258-264). -/
structure XeroFinancialData where
  cashBalance : ℚ
  monthlyRevenue : JsNum
  monthlyExpenses : JsNum
  profitLoss : XeroReport
  balanceSheet : XeroReport
deriving DecidableEq

/-- XeroClient.getFinancialData (part_001 lines 206-265): Promise.all over
P&L, balance sheet and bank accounts, then extraction; revenue and expenses
come from the P&L sections titled Revenue and Expenses, cash from the bank
account total. -/
def Xero.getFinancialData (profitLoss balanceSheet : Except String XeroReport)
    (bankAccounts : Except String XeroAccountsResponse) :
    Except String XeroFinancialData :=
  match profitLoss, balanceSheet, bankAccounts with
  | .error e, _, _ => .error e
  | .ok _, .error e, _ => .error e
  | .ok _, .ok _, .error e => .error e
  | .ok pl, .ok bs, .ok ba =>
    .ok { cashBalance := Xero.totalCash ba.accounts
          monthlyRevenue := Xero.extractMetric pl "Revenue"
          monthlyExpenses := Xero.extractMetric pl "Expenses"
          profitLoss := pl
          balanceSheet := bs }

/-! Insights generators (src/unnamed/part_000, class InsightsGenerator). Each
generator derives its numeric payload from the canonical metrics, sends a
prompt to the narrative service and packages the payload with the returned
text. The narrative call is external: its outcome is passed in as an Except
value whose ok payload is the (possibly null) content string of
response.choices[0].message; prompt construction only feeds that call and is
not modelled. The source has no try/catch around the call, so an error
outcome propagates out of the generator. -/

/-- The canonical metrics record the generators consume (interface
FinancialMetrics of part_000). Its optional derived fields are omitted: no
generator reads them. -/
structure FinancialMetrics where
  cashBalance : ℚ
  monthlyRevenue : ℚ
  monthlyExpenses : ℚ
deriving DecidableEq

/-- The data payload of a cash-runway insight (part_000 lines 74-80). -/
structure CashRunwayData where
  cashBalance : ℚ
  monthlyRevenue : ℚ
  monthlyExpenses : ℚ
  netBurn : ℚ
  runwayMonths : ℚ
deriving DecidableEq

/-- The data payload of a profit-margin insight (part_000 lines 168-172). -/
structure ProfitMarginData where
  monthlyRevenue : ℚ
  monthlyExpenses : ℚ
  profitMargin : ℚ
deriving DecidableEq

/-- The data payload of a hiring-impact insight (part_000 lines 229-236). -/
structure HiringImpactData where
  currentRunway : ℚ
  newRunway : ℚ
  annualSalary : ℚ
  monthlyCost : ℚ
  currentMonthlyExpenses : ℚ
  newMonthlyExpenses : ℚ
deriving DecidableEq

/-- An insight result (interface Insight of part_000), with the payload type
made precise per generator instead of the source's any. -/
structure Insight (α : Type) where
  type : String
  title : String
  text : String
  data : α
deriving DecidableEq

/-- The numeric derivation of generateCashRunway (part_000 lines 37-38 and its
payload, lines 74-80): netBurn = monthlyExpenses - monthlyRevenue and
runwayMonths = netBurn > 0 ? Math.floor(cashBalance / netBurn) : 999. -/
def cashRunwayPayload (metrics : FinancialMetrics) : CashRunwayData :=
  let netBurn := metrics.monthlyExpenses - metrics.monthlyRevenue
  let runwayMonths : ℚ :=
    if netBurn > 0 then ((⌊metrics.cashBalance / netBurn⌋ : ℤ) : ℚ) else 999
  { cashBalance := metrics.cashBalance
    monthlyRevenue := metrics.monthlyRevenue
    monthlyExpenses := metrics.monthlyExpenses
    netBurn := netBurn
    runwayMonths := runwayMonths }

/-- generateCashRunway (part_000 lines 36-82): compute the payload, make the
narrative call, and package the payload with the content or the fixed
fallback string. An error outcome of the call propagates unchanged. -/
def generateCashRunway (metrics : FinancialMetrics) (response : Except String (Option String)) :
    Except String (Insight CashRunwayData) :=
  match response with
  | .error e => .error e
  | .ok content =>
    .ok { type := "cash_runway"
          title := "Cash Runway"
          text := jsOrDefault content "Unable to generate insight."
          data := cashRunwayPayload metrics }

/-- The numeric derivation of generateProfitMargin (part_000 lines 133-135 and
its payload, lines 168-172): profitMargin = monthlyRevenue > 0 ?
((monthlyRevenue - monthlyExpenses) / monthlyRevenue) * 100 : 0. -/
def profitMarginPayload (metrics : FinancialMetrics) : ProfitMarginData :=
  let profitMargin : ℚ :=
    if metrics.monthlyRevenue > 0 then
      ((metrics.monthlyRevenue - metrics.monthlyExpenses) / metrics.monthlyRevenue) * 100
    else 0
  { monthlyRevenue := metrics.monthlyRevenue
    monthlyExpenses := metrics.monthlyExpenses
    profitMargin := profitMargin }

/-- generateProfitMargin (part_000 lines 132-174), packaged like
generateCashRunway. -/
def generateProfitMargin (metrics : FinancialMetrics) (response : Except String (Option String)) :
    Except String (Insight ProfitMarginData) :=
  match response with
  | .error e => .error e
  | .ok content =>
    .ok { type := "profit_margin"
          title := "Profit Margin"
          text := jsOrDefault content "Unable to generate insight."
          data := profitMarginPayload metrics }

/-- The numeric derivation of generateHiringImpact (part_000 lines 183-189 and
its payload, lines 229-236): monthly cost = annualSalary / 12, the projected
expense figure adds it, and both runways use the same floor/999 rule as
generateCashRunway. -/
def hiringImpactPayload (metrics : FinancialMetrics) (annualSalary : ℚ) : HiringImpactData :=
  let monthlySalaryCost := annualSalary / 12
  let newMonthlyExpenses := metrics.monthlyExpenses + monthlySalaryCost
  let newNetBurn := newMonthlyExpenses - metrics.monthlyRevenue
  let currentNetBurn := metrics.monthlyExpenses - metrics.monthlyRevenue
  let currentRunway : ℚ :=
    if currentNetBurn > 0 then ((⌊metrics.cashBalance / currentNetBurn⌋ : ℤ) : ℚ) else 999
  let newRunway : ℚ :=
    if newNetBurn > 0 then ((⌊metrics.cashBalance / newNetBurn⌋ : ℤ) : ℚ) else 999
  { currentRunway := currentRunway
    newRunway := newRunway
    annualSalary := annualSalary
    monthlyCost := monthlySalaryCost
    currentMonthlyExpenses := metrics.monthlyExpenses
    newMonthlyExpenses := newMonthlyExpenses }

/-- generateHiringImpact (part_000 lines 179-238); the salary figure that the
source interpolates into the title string is abstracted to a fixed title,
which no claim concerns. -/
def generateHiringImpact (metrics : FinancialMetrics) (annualSalary : ℚ)
    (response : Except String (Option String)) :
    Except String (Insight HiringImpactData) :=
  match response with
  | .error e => .error e
  | .ok content =>
    .ok { type := "hiring_impact"
          title := "Hiring Impact"
          text := jsOrDefault content "Unable to generate insight."
          data := hiringImpactPayload metrics annualSalary }

/-- The runway rule exactly as the spec states it: floor of cash over burn
when burning, the fixed sentinel 999 otherwise. Stated separately from the
generator payloads for comparison with them. -/
def specRunway (cashBalance netBurn : ℚ) : ℚ :=
  if netBurn > 0 then ((⌊cashBalance / netBurn⌋ : ℤ) : ℚ) else 999

/-! Request dispatch of the insights route
(src/app/api/insights/generate/route.ts lines 63-117). The switch on
insightType validates scenario parameters before invoking any generator; the
JavaScript guards !params?.annualSalary and !params?.question treat an absent
params object, an absent field, the number 0 and the empty string as falsy. -/

/-- The optional params object of an insight request. -/
structure RouteParams where
  annualSalary : Option ℚ
  question : Option String
deriving DecidableEq

/-- Outcome of the insightType switch: an invalid-request error response, or
the generator invocation the route proceeds with. -/
inductive Dispatch where
  | invalid (msg : String)
  | cashRunway
  | burnRate
  | profitMargin
  | hiringImpact (annualSalary : ℚ)
  | custom (question : String)
  | allInsights
deriving DecidableEq

/-- The insightType switch of the route POST handler (route.ts lines 63-117),
with each case reduced to the dispatch decision it makes. The canonical
metrics fetch precedes this switch in the handler; narrative generation and
derivation happen only inside the generator a non-invalid dispatch names. -/
def routeDispatch (insightType : String) (params : Option RouteParams) : Dispatch :=
  if insightType = "cash_runway" then .cashRunway
  else if insightType = "burn_rate" then .burnRate
  else if insightType = "profit_margin" then .profitMargin
  else if insightType = "hiring_impact" then
    match params.bind RouteParams.annualSalary with
    | none => .invalid "Annual salary required for hiring impact"
    | some s =>
      if s = 0 then .invalid "Annual salary required for hiring impact" else .hiringImpact s
  else if insightType = "custom" then
    match params.bind RouteParams.question with
    | none => .invalid "Question required for custom insight"
    | some q =>
      if q = "" then .invalid "Question required for custom insight" else .custom q
  else if insightType = "all" then .allInsights
  else .invalid "Invalid insight type"

/-! Concrete report fixtures used by counterexamples and witnesses. -/

/-- A QuickBooks report with no Rows field. -/
def emptyQBReport : QBReport := ⟨none⟩

/-- A Xero report with no Reports field. -/
def emptyXeroReport : XeroReport := ⟨none⟩

/-- A QuickBooks P&L in which the first row labelled Total Income carries no
ColData array and a second row with the same label carries the value 42. -/
def qbShadowReport : QBReport :=
  ⟨some
    [{ headerColData := some [⟨some (JsPrim.str "Total Income")⟩]
       colData := none
       childRows := none },
     { headerColData := some [⟨some (JsPrim.str "Total Income")⟩]
       colData := some [⟨some (JsPrim.str "Total Income")⟩, ⟨some (JsPrim.str "42")⟩]
       childRows := none }]⟩

/-- A QuickBooks P&L whose Total Income row carries the non-numeric cell
value "abc". -/
def qbNaNReport : QBReport :=
  ⟨some
    [{ headerColData := some [⟨some (JsPrim.str "Total Income")⟩]
       colData := some [⟨some (JsPrim.str "Total Income")⟩, ⟨some (JsPrim.str "abc")⟩]
       childRows := none }]⟩

/-- A Xero section row holding the given value string in its second cell. -/
def xeroRow (v : String) : XeroRow :=
  ⟨some [⟨some (JsPrim.str "label")⟩, ⟨some (JsPrim.str v)⟩]⟩

/-- A Xero P&L with one section titled Revenue whose rows carry 1000, 2000
and 500. -/
def xeroRevenueReport : XeroReport :=
  ⟨some [⟨some [⟨some (JsPrim.str "Revenue"), some [xeroRow "1000", xeroRow "2000", xeroRow "500"]⟩]⟩]⟩

/-! Helper lemmas shared by the claim theorems. -/

theorem list_find_append {α : Type} (p : α → Bool) (l1 l2 : List α) :
    (l1 ++ l2).find? p =
      (match l1.find? p with
       | some x => some x
       | none => l2.find? p) := by
  induction l1 with
  | nil => simp
  | cons a l ih =>
    cases h : p a <;> simp [List.find?, h, ih]

theorem extractMetricRows_eq_find (name : String) (l : List QBTopRow) :
    QuickBooks.extractMetricRows name l =
      (match l.find? (qbFlatMatch name) with
       | some r => r.rowValue
       | none => .val 0) := by
  induction l with
  | nil => rfl
  | cons r rest ih =>
    cases h : qbFlatMatch name r <;>
      simp [QuickBooks.extractMetricRows, List.find?, h, ih]

theorem extractBSChildRows_eq_find (name : String) (l : List QBChildRow) :
    QuickBooks.extractBSChildRows name l =
      (l.find? (qbChildMatch name)).map QBChildRow.childValue := by
  induction l with
  | nil => rfl
  | cons r rest ih =>
    cases h : qbChildMatch name r <;>
      simp [QuickBooks.extractBSChildRows, List.find?, h, ih]

theorem extractBSSections_eq_find (name : String) (l : List QBTopRow) :
    QuickBooks.extractBSSections name l =
      (match (l.flatMap fun s => s.childRows.getD []).find? (qbChildMatch name) with
       | some r => r.childValue
       | none => .val 0) := by
  induction l with
  | nil => rfl
  | cons s rest ih =>
    rw [List.flatMap_cons, list_find_append]
    cases hc : s.childRows with
    | none =>
      simp only [QuickBooks.extractBSSections, hc, Option.getD_none, List.find?_nil]
      exact ih
    | some children =>
      simp only [QuickBooks.extractBSSections, hc, Option.getD_some,
        extractBSChildRows_eq_find]
      cases hf : children.find? (qbChildMatch name) with
      | none => simpa using ih
      | some r => simp

theorem JsNum.add_val_zero (t : JsNum) : t.add (.val 0) = t := by
  cases t <;> simp [JsNum.add]

theorem sumRows_foldl_eq (rows : List XeroRow) (t : JsNum) :
    rows.foldl
      (fun total r =>
        match r.cells with
        | some cs =>
          if cs.length > 1 then total.add (parseCellOrZero ((cs.get? 1).bind XeroCell.value))
          else total
        | none => total) t =
    rows.foldl
      (fun total r =>
        match r.cells with
        | some cs =>
          if cs.length > 1 then total.add (parseCellOrZero ((cs.get? 1).bind XeroCell.value))
          else total.add (.val 0)
        | none => total.add (.val 0)) t := by
  induction rows generalizing t with
  | nil => rfl
  | cons r rest ih =>
    simp only [List.foldl_cons]
    cases hr : r.cells with
    | none => rw [JsNum.add_val_zero]; exact ih t
    | some cs =>
      dsimp only
      by_cases h : cs.length > 1
      · rw [if_pos h, if_pos h]; exact ih _
      · rw [if_neg h, if_neg h, JsNum.add_val_zero]; exact ih t

theorem sumRows_eq_specSectionSum (s : XeroSection) :
    Xero.sumRows (s.rows.getD []) = specSectionSum s := by
  unfold Xero.sumRows specSectionSum
  exact sumRows_foldl_eq (s.rows.getD []) (.val 0)

theorem scanSections_of_no_title (name : String) (l : List XeroSection)
    (h : ∀ s ∈ l, ¬ s.title = some (JsPrim.str name)) :
    Xero.scanSections name l = .val 0 := by
  induction l with
  | nil => rfl
  | cons s rest ih =>
    have hs : xeroSectionMatch name s = false := by
      simp [xeroSectionMatch, h s (List.mem_cons_self s rest)]
    simp only [Xero.scanSections, hs, Bool.false_eq_true, if_false]
    exact ih fun x hx => h x (List.mem_cons_of_mem s hx)

theorem scanSections_finds_titled (name : String) (l : List XeroSection)
    (h : ∃ s ∈ l, s.title = some (JsPrim.str name)) :
    ∃ s ∈ l, s.title = some (JsPrim.str name) ∧
      Xero.scanSections name l = specSectionSum s := by
  induction l with
  | nil => obtain ⟨s, hs, _⟩ := h; cases hs
  | cons s rest ih =>
    cases hm : xeroSectionMatch name s with
    | true =>
      have ht : s.title = some (JsPrim.str name) := by
        have := hm
        unfold xeroSectionMatch at this
        simp only [Bool.and_eq_true, decide_eq_true_eq] at this
        exact this.1
      refine ⟨s, List.mem_cons_self s rest, ht, ?_⟩
      simp only [Xero.scanSections, hm, if_true]
      exact sumRows_eq_specSectionSum s
    | false =>
      by_cases hrest : ∃ x ∈ rest, x.title = some (JsPrim.str name)
      · obtain ⟨x, hx, hxt, hxe⟩ := ih hrest
        refine ⟨x, List.mem_cons_of_mem s hx, hxt, ?_⟩
        simpa only [Xero.scanSections, hm, Bool.false_eq_true, if_false] using hxe
      · obtain ⟨w, hw, hwt⟩ := h
        rcases List.mem_cons.mp hw with hws | hwr
        · subst hws
          have hrows : w.rows = none := by
            cases hr : w.rows with
            | none => rfl
            | some rs =>
              exfalso
              have : xeroSectionMatch name w = true := by
                simp [xeroSectionMatch, hwt, hr]
              rw [this] at hm; cases hm
          refine ⟨w, List.mem_cons_self w rest, hwt, ?_⟩
          have h0 : specSectionSum w = .val 0 := by
            simp [specSectionSum, hrows]
          rw [h0]
          simp only [Xero.scanSections, hm, Bool.false_eq_true, if_false]
          exact scanSections_of_no_title name rest fun x hx hxt => hrest ⟨x, hx, hxt⟩
        · exact absurd ⟨w, hwr, hwt⟩ hrest

theorem xeroExtract_eq_scan (report : XeroReport) (name : String) :
    Xero.extractMetric report name = Xero.scanSections name (xeroSections report) := by
  unfold Xero.extractMetric xeroSections
  cases report.reports.getD [] with
  | nil => rfl
  | cons f rest => rfl

/-! The claim theorems. -/

/-- Claim C1 (confirmed): for every metrics input the computed net burn equals
monthlyExpenses - monthlyRevenue, runwayMonths follows the floor/999-sentinel
rule regardless of cashBalance, generateCashRunway and generateHiringImpact
compute runway by this same rule (the latter for both the current and the
projected expense figure), and the spec example 50000/20000/15000 gives 10
months. -/
theorem claim1_runway_rule (m : FinancialMetrics) (s : ℚ) :
    (cashRunwayPayload m).netBurn = m.monthlyExpenses - m.monthlyRevenue
    ∧ (cashRunwayPayload m).runwayMonths =
        specRunway m.cashBalance (m.monthlyExpenses - m.monthlyRevenue)
    ∧ (hiringImpactPayload m s).currentRunway =
        specRunway m.cashBalance (m.monthlyExpenses - m.monthlyRevenue)
    ∧ (hiringImpactPayload m s).newRunway =
        specRunway m.cashBalance (m.monthlyExpenses + s / 12 - m.monthlyRevenue)
    ∧ (cashRunwayPayload ⟨50000, 15000, 20000⟩).runwayMonths = 10 := by
  refine ⟨rfl, rfl, rfl, rfl, ?_⟩
  show specRunway 50000 (20000 - 15000) = 10
  rw [specRunway, if_pos (by norm_num)]
  norm_num

/-- Claim C2 (confirmed): the profit margin computed by generateProfitMargin
is (monthlyRevenue - monthlyExpenses) / monthlyRevenue * 100 when revenue is
positive and exactly 0 when revenue is 0 (the division is guarded, not an
error), and the spec example 10000/7000 gives 30. -/
theorem claim2_profit_margin (m : FinancialMetrics) :
    (m.monthlyRevenue > 0 →
      (profitMarginPayload m).profitMargin =
        (m.monthlyRevenue - m.monthlyExpenses) / m.monthlyRevenue * 100)
    ∧ (m.monthlyRevenue = 0 → (profitMarginPayload m).profitMargin = 0)
    ∧ (profitMarginPayload ⟨0, 10000, 7000⟩).profitMargin = 30 := by
  refine ⟨?_, ?_, ?_⟩
  · intro h
    show (if m.monthlyRevenue > 0 then _ else 0) = _
    rw [if_pos h]
  · intro h
    show (if m.monthlyRevenue > 0 then _ else 0) = 0
    rw [if_neg (by rw [h]; exact lt_irrefl 0)]
  · show (if (10000 : ℚ) > 0 then ((10000 : ℚ) - 7000) / 10000 * 100 else 0) = 30
    rw [if_pos (by norm_num)]
    norm_num

/-- Witness for claim C2: at revenue 10000 and expenses 7000 the positive
branch applies, and at revenue 0 the margin is 0. -/
theorem claim2_witness :
    (profitMarginPayload ⟨0, 10000, 7000⟩).profitMargin = (10000 - 7000) / 10000 * 100
    ∧ (profitMarginPayload ⟨0, 0, 7000⟩).profitMargin = 0 :=
  ⟨(claim2_profit_margin ⟨0, 10000, 7000⟩).1 (by norm_num),
   (claim2_profit_margin ⟨0, 0, 7000⟩).2.1 rfl⟩

/-- Claim C9 (confirmed): the hiring-impact derivation computes monthly cost
as annualSalary / 12, recomputes expenses and runway under the increased
figure with the same floor/999 rule used for the plain cash-runway payload,
yields identical currentRunway/newRunway pairs on repeated calls, and — being
a pure function of its arguments, faithfully to a source that only reads the
metrics object — leaves the canonical metrics unchanged. -/
theorem claim9_hiring_idempotent (m : FinancialMetrics) (s : ℚ) :
    (hiringImpactPayload m s).monthlyCost = s / 12
    ∧ (hiringImpactPayload m s).newMonthlyExpenses = m.monthlyExpenses + s / 12
    ∧ (hiringImpactPayload m s).currentRunway = (cashRunwayPayload m).runwayMonths
    ∧ (hiringImpactPayload m s).newRunway =
        (cashRunwayPayload
          { m with monthlyExpenses := m.monthlyExpenses + s / 12 }).runwayMonths
    ∧ ((hiringImpactPayload m s).currentRunway, (hiringImpactPayload m s).newRunway) =
        ((hiringImpactPayload m s).currentRunway, (hiringImpactPayload m s).newRunway) :=
  ⟨rfl, rfl, rfl, rfl, rfl⟩

/-- Claim C10 (confirmed): with positive net burn and negative cash, the
runway of generateCashRunway and both runways of generateHiringImpact are the
floor of cash over burn — a negative number of months — with no clamping to
zero and no 999 sentinel. -/
theorem claim10_negative_cash_runway (m : FinancialMetrics) (s : ℚ)
    (hs : 0 ≤ s) (hburn : m.monthlyExpenses - m.monthlyRevenue > 0)
    (hcash : m.cashBalance < 0) :
    (cashRunwayPayload m).runwayMonths =
        ((⌊m.cashBalance / (m.monthlyExpenses - m.monthlyRevenue)⌋ : ℤ) : ℚ)
    ∧ (cashRunwayPayload m).runwayMonths < 0
    ∧ (hiringImpactPayload m s).currentRunway = (cashRunwayPayload m).runwayMonths
    ∧ (hiringImpactPayload m s).newRunway =
        ((⌊m.cashBalance / (m.monthlyExpenses + s / 12 - m.monthlyRevenue)⌋ : ℤ) : ℚ)
    ∧ (hiringImpactPayload m s).newRunway < 0 := by
  have h12 : 0 ≤ s / 12 := by positivity
  have hburn2 : m.monthlyExpenses + s / 12 - m.monthlyRevenue > 0 := by linarith
  have hq1 : m.cashBalance / (m.monthlyExpenses - m.monthlyRevenue) < 0 :=
    div_neg_of_neg_of_pos hcash hburn
  have hq2 : m.cashBalance / (m.monthlyExpenses + s / 12 - m.monthlyRevenue) < 0 :=
    div_neg_of_neg_of_pos hcash hburn2
  have hf1 : ⌊m.cashBalance / (m.monthlyExpenses - m.monthlyRevenue)⌋ < 0 :=
    Int.floor_lt.mpr (by exact_mod_cast hq1)
  have hf2 : ⌊m.cashBalance / (m.monthlyExpenses + s / 12 - m.monthlyRevenue)⌋ < 0 :=
    Int.floor_lt.mpr (by exact_mod_cast hq2)
  have e1 : (cashRunwayPayload m).runwayMonths =
      ((⌊m.cashBalance / (m.monthlyExpenses - m.monthlyRevenue)⌋ : ℤ) : ℚ) := by
    show (if m.monthlyExpenses - m.monthlyRevenue > 0 then _ else (999 : ℚ)) = _
    rw [if_pos hburn]
  have e2 : (hiringImpactPayload m s).newRunway =
      ((⌊m.cashBalance / (m.monthlyExpenses + s / 12 - m.monthlyRevenue)⌋ : ℤ) : ℚ) := by
    show (if m.monthlyExpenses + s / 12 - m.monthlyRevenue > 0 then _ else (999 : ℚ)) = _
    rw [if_pos hburn2]
  refine ⟨e1, ?_, rfl, e2, ?_⟩
  · rw [e1]; exact_mod_cast hf1
  · rw [e2]; exact_mod_cast hf2

/-- Witness for claim C10: cash -100, revenue 0, expenses 50 and salary 1200
give a negative current runway and a negative projected runway. -/
theorem claim10_witness :
    (cashRunwayPayload ⟨-100, 0, 50⟩).runwayMonths < 0
    ∧ (hiringImpactPayload ⟨-100, 0, 50⟩ 1200).newRunway < 0 :=
  ⟨(claim10_negative_cash_runway ⟨-100, 0, 50⟩ 1200 (by norm_num) (by norm_num)
      (by norm_num)).2.1,
   (claim10_negative_cash_runway ⟨-100, 0, 50⟩ 1200 (by norm_num) (by norm_num)
      (by norm_num)).2.2.2.2⟩

/-- Counterexample to claim C3: in qbShadowReport the first top-level row
whose label equals Total Income carries no ColData array; the code skips it
and returns 42 from the second row with the same label, while the rule of the
claim — the numeric cell of the first label match in document order, missing
cell extracting as zero — gives 0. -/
theorem claim3_counterexample :
    QuickBooks.extractMetric qbShadowReport "Total Income" = JsNum.val 42
    ∧ claimExtractFlat qbShadowReport "Total Income" = JsNum.val 0
    ∧ QuickBooks.extractMetric qbShadowReport "Total Income" ≠
        claimExtractFlat qbShadowReport "Total Income" := by
  have e1 : QuickBooks.extractMetric qbShadowReport "Total Income" = JsNum.val 42 := rfl
  have e2 : claimExtractFlat qbShadowReport "Total Income" = JsNum.val 0 := rfl
  refine ⟨e1, e2, ?_⟩
  rw [e1, e2]
  intro h
  exact absurd (JsNum.val.inj h) (by norm_num)

/-- Claim C3 amended (the flat rule matches only rows that carry a ColData
array): the flat extractor returns the numeric cell of the first top-level row
that both has a ColData array and whose header label equals the target; the
nested extractor returns the numeric cell of the first matching child row one
level deeper, first match across sections in document order, exactly as
claimed; and when no row matches, both return 0 and cannot throw. -/
theorem claim3_first_match_rule (report : QBReport) (name : String) :
    QuickBooks.extractMetric report name = claimExtractFlatGuarded report name
    ∧ QuickBooks.extractBalanceSheetMetric report name = claimExtractNested report name
    ∧ ((report.rows.getD []).find? (qbFlatMatch name) = none →
        QuickBooks.extractMetric report name = JsNum.val 0)
    ∧ (((report.rows.getD []).flatMap fun s => s.childRows.getD []).find?
          (qbChildMatch name) = none →
        QuickBooks.extractBalanceSheetMetric report name = JsNum.val 0) := by
  have h1 : QuickBooks.extractMetric report name = claimExtractFlatGuarded report name := by
    unfold QuickBooks.extractMetric claimExtractFlatGuarded
    exact extractMetricRows_eq_find name _
  have h2 : QuickBooks.extractBalanceSheetMetric report name =
      claimExtractNested report name := by
    unfold QuickBooks.extractBalanceSheetMetric claimExtractNested
    exact extractBSSections_eq_find name _
  refine ⟨h1, h2, ?_, ?_⟩
  · intro hnone
    rw [h1]; unfold claimExtractFlatGuarded; rw [hnone]
  · intro hnone
    rw [h2]; unfold claimExtractNested; rw [hnone]

/-- Witness for the amended claim C3: on a report with no Rows at all both
extractors return 0. -/
theorem claim3_witness :
    QuickBooks.extractMetric emptyQBReport "Total Income" = JsNum.val 0
    ∧ QuickBooks.extractBalanceSheetMetric emptyQBReport "Cash and cash equivalents" =
        JsNum.val 0 :=
  ⟨(claim3_first_match_rule emptyQBReport "Total Income").2.2.1 rfl,
   (claim3_first_match_rule emptyQBReport "Cash and cash equivalents").2.2.2 rfl⟩

/-- Claim C4 (confirmed): whenever a Xero report contains a section whose
Title equals the target, the extractor's result is the sum of the second-cell
values of the rows of such a section — and on the synthetic Revenue report
with rows 1000, 2000 and 500 it returns 3500, the sum, not 1000, the first
match, distinguishing the Xero sum rule from the QuickBooks first-match
rule. -/
theorem claim4_xero_section_sum :
    (∀ (report : XeroReport) (name : String),
      (∃ s ∈ xeroSections report, s.title = some (JsPrim.str name)) →
      ∃ s ∈ xeroSections report, s.title = some (JsPrim.str name) ∧
        Xero.extractMetric report name = specSectionSum s)
    ∧ Xero.extractMetric xeroRevenueReport "Revenue" = JsNum.val 3500
    ∧ Xero.extractMetric xeroRevenueReport "Revenue" ≠ JsNum.val 1000 := by
  have e : Xero.extractMetric xeroRevenueReport "Revenue" =
      JsNum.val ((((0 : ℚ) + 1000) + 2000) + 500) := rfl
  refine ⟨?_, ?_, ?_⟩
  · intro report name h
    simp only [xeroExtract_eq_scan]
    exact scanSections_finds_titled name _ h
  · rw [e]; norm_num
  · rw [e]
    intro h
    exact absurd (JsNum.val.inj h) (by norm_num)

/-- Witness for claim C4: the Revenue section of the synthetic report is a
titled section whose row sum the extractor returns. -/
theorem claim4_witness :
    ∃ s ∈ xeroSections xeroRevenueReport, s.title = some (JsPrim.str "Revenue") ∧
      Xero.extractMetric xeroRevenueReport "Revenue" = specSectionSum s :=
  claim4_xero_section_sum.1 xeroRevenueReport "Revenue"
    ⟨⟨some (JsPrim.str "Revenue"), some [xeroRow "1000", xeroRow "2000", xeroRow "500"]⟩,
     List.mem_singleton.mpr rfl, rfl⟩

/-- Counterexample to claim C5: a non-numeric string in the matched cell does
not extract as 0 — parseFloat("abc") is NaN and the extractor returns it. -/
theorem claim5_counterexample :
    QuickBooks.extractMetric qbNaNReport "Total Income" = JsNum.nan
    ∧ JsNum.nan ≠ JsNum.val 0 :=
  ⟨rfl, by decide⟩

/-- Claim C5 amended (the lenient-zero policy covers misses and empty cells,
not non-numeric cell contents): a report in which no row passes the match
condition extracts as 0; a missing or empty value in the matched cell parses
as 0; the Xero extractor likewise returns 0 when no section carries the target
title; and the canonical-metrics builder computes each metric by an
independent total extraction over its report, so no per-metric outcome —
including NaN from a non-numeric cell — prevents the sibling metrics from
being extracted. -/
theorem claim5_lenient_zero (qr : QBReport) (xr : XeroReport) (name : String)
    (v : Option JsPrim) (r1 r2 r3 : QBReport) :
    ((qr.rows.getD []).find? (qbFlatMatch name) = none →
      QuickBooks.extractMetric qr name = JsNum.val 0)
    ∧ (jsFalsyPrim v = true → parseCellOrZero v = JsNum.val 0)
    ∧ ((∀ s ∈ xeroSections xr, ¬ s.title = some (JsPrim.str name)) →
        Xero.extractMetric xr name = JsNum.val 0)
    ∧ QuickBooks.getFinancialData (.ok r1) (.ok r2) (.ok r3) =
        .ok { cashBalance := QuickBooks.extractBalanceSheetMetric r3 "Cash and cash equivalents"
              monthlyRevenue := QuickBooks.extractMetric r2 "Total Income"
              monthlyExpenses := QuickBooks.extractMetric r2 "Total Expenses"
              profitLoss := r2
              balanceSheet := r3 } := by
  refine ⟨?_, ?_, ?_, rfl⟩
  · intro hnone
    unfold QuickBooks.extractMetric
    rw [extractMetricRows_eq_find, hnone]
  · intro hv
    unfold parseCellOrZero
    rw [hv]
    rfl
  · intro h
    rw [xeroExtract_eq_scan]
    exact scanSections_of_no_title name _ h

/-- Witness for the amended claim C5: the empty reports miss every label and
extract as 0, an absent cell value parses as 0, and the builder packages the
three extractions of the empty reports. -/
theorem claim5_witness :
    QuickBooks.extractMetric emptyQBReport "Total Expenses" = JsNum.val 0
    ∧ parseCellOrZero none = JsNum.val 0
    ∧ Xero.extractMetric emptyXeroReport "Revenue" = JsNum.val 0 :=
  ⟨(claim5_lenient_zero emptyQBReport emptyXeroReport "Total Expenses" none
      emptyQBReport emptyQBReport emptyQBReport).1 rfl,
   (claim5_lenient_zero emptyQBReport emptyXeroReport "Total Expenses" none
      emptyQBReport emptyQBReport emptyQBReport).2.1 rfl,
   (claim5_lenient_zero emptyQBReport emptyXeroReport "Revenue" none
      emptyQBReport emptyQBReport emptyQBReport).2.2.1
     (fun s hs _ => absurd hs (List.not_mem_nil s))⟩

/-- Claim C6 (confirmed): a canonical-metrics build succeeds exactly when all
of its underlying report fetches succeed — a failing fetch fails the whole
build with an error coming from one of the fetches, and no partial record is
ever produced — for the QuickBooks builder and the Xero builder alike. -/
theorem claim6_all_or_nothing (q1 q2 q3 : Except String QBReport)
    (x1 x2 : Except String XeroReport) (x3 : Except String XeroAccountsResponse) :
    ((∃ d, QuickBooks.getFinancialData q1 q2 q3 = .ok d) ↔
      (∃ a, q1 = .ok a) ∧ (∃ b, q2 = .ok b) ∧ (∃ c, q3 = .ok c))
    ∧ (∀ e, QuickBooks.getFinancialData q1 q2 q3 = .error e →
        q1 = .error e ∨ q2 = .error e ∨ q3 = .error e)
    ∧ ((∃ d, Xero.getFinancialData x1 x2 x3 = .ok d) ↔
      (∃ a, x1 = .ok a) ∧ (∃ b, x2 = .ok b) ∧ (∃ c, x3 = .ok c))
    ∧ (∀ e, Xero.getFinancialData x1 x2 x3 = .error e →
        x1 = .error e ∨ x2 = .error e ∨ x3 = .error e) := by
  constructor
  · rcases q1 with e1 | a1 <;> rcases q2 with e2 | a2 <;> rcases q3 with e3 | a3 <;>
      simp [QuickBooks.getFinancialData]
  constructor
  · intro e he
    rcases q1 with e1 | a1 <;> rcases q2 with e2 | a2 <;> rcases q3 with e3 | a3 <;>
      simp [QuickBooks.getFinancialData] at he <;> simp [he]
  constructor
  · rcases x1 with f1 | b1 <;> rcases x2 with f2 | b2 <;> rcases x3 with f3 | b3 <;>
      simp [Xero.getFinancialData]
  · intro e he
    rcases x1 with f1 | b1 <;> rcases x2 with f2 | b2 <;> rcases x3 with f3 | b3 <;>
      simp [Xero.getFinancialData] at he <;> simp [he]

/-- Witness for claim C6: a failing first fetch makes the QuickBooks build
fail with that fetch's error. -/
theorem claim6_witness :
    (Except.error "boom" : Except String QBReport) = .error "boom"
    ∨ (Except.ok emptyQBReport : Except String QBReport) = .error "boom"
    ∨ (Except.ok emptyQBReport : Except String QBReport) = .error "boom" :=
  (claim6_all_or_nothing (.error "boom") (.ok emptyQBReport) (.ok emptyQBReport)
    (.ok emptyXeroReport) (.ok emptyXeroReport) (.ok ⟨none⟩)).2.1 "boom" rfl

/-- Counterexample to claim C7: when the narrative-generation call fails, the
generator has no handler — the failure propagates to the caller and no result
carrying the numeric payload and the fallback text is returned. -/
theorem claim7_counterexample :
    generateCashRunway ⟨50000, 15000, 20000⟩ (.error "network error") = .error "network error"
    ∧ generateCashRunway ⟨50000, 15000, 20000⟩ (.error "network error") ≠
        .ok { type := "cash_runway", title := "Cash Runway",
              text := "Unable to generate insight.",
              data := cashRunwayPayload ⟨50000, 15000, 20000⟩ } :=
  ⟨rfl, fun h => Except.noConfusion h⟩

/-- Claim C7 amended (the fallback covers a null or empty narrative response,
while a failed narrative call propagates): whenever the narrative call returns
with no content or with empty content, the generator still returns a result
whose numeric payload is fully populated and whose text is exactly the fixed
fallback string. -/
theorem claim7_fallback_text (m : FinancialMetrics) (content : Option String)
    (h : content = none ∨ content = some "") :
    generateCashRunway m (.ok content) =
      .ok { type := "cash_runway", title := "Cash Runway",
            text := "Unable to generate insight.",
            data := cashRunwayPayload m } := by
  rcases h with h | h <;> subst h <;> rfl

/-- Witness for the amended claim C7: a null content string produces the
fallback insight with the full payload. -/
theorem claim7_witness :
    generateCashRunway ⟨50000, 15000, 20000⟩ (.ok none) =
      .ok { type := "cash_runway", title := "Cash Runway",
            text := "Unable to generate insight.",
            data := cashRunwayPayload ⟨50000, 15000, 20000⟩ } :=
  claim7_fallback_text ⟨50000, 15000, 20000⟩ none (Or.inl rfl)

/-- Counterexample to claim C8: an annualSalary of 0 is present, yet the
route's falsy check rejects the request instead of proceeding. -/
theorem claim8_counterexample :
    routeDispatch "hiring_impact" (some ⟨some 0, none⟩) =
      Dispatch.invalid "Annual salary required for hiring impact"
    ∧ routeDispatch "hiring_impact" (some ⟨some 0, none⟩) ≠ Dispatch.hiringImpact 0 := by
  have e : routeDispatch "hiring_impact" (some ⟨some 0, none⟩) =
      Dispatch.invalid "Annual salary required for hiring impact" := rfl
  exact ⟨e, by rw [e]; exact fun h => Dispatch.noConfusion h⟩

/-- Claim C8 amended (the falsy guards reject an absent or zero salary and an
absent or empty question): the dispatch of the insights route fails fast with
the distinct invalid-request error when a hiring-impact request has no
annualSalary or a zero one, or a custom request has no question or an empty
one, before any generator is invoked; with a nonzero salary or a nonempty
question the request proceeds to the corresponding generator with the given
parameter. -/
theorem claim8_param_validation (params : Option RouteParams) :
    ((params.bind RouteParams.annualSalary = none ∨
        params.bind RouteParams.annualSalary = some 0) →
      routeDispatch "hiring_impact" params =
        .invalid "Annual salary required for hiring impact")
    ∧ (∀ s : ℚ, params.bind RouteParams.annualSalary = some s → s ≠ 0 →
        routeDispatch "hiring_impact" params = .hiringImpact s)
    ∧ ((params.bind RouteParams.question = none ∨
        params.bind RouteParams.question = some "") →
      routeDispatch "custom" params = .invalid "Question required for custom insight")
    ∧ (∀ q : String, params.bind RouteParams.question = some q → q ≠ "" →
        routeDispatch "custom" params = .custom q) := by
  have hh : routeDispatch "hiring_impact" params =
      (match params.bind RouteParams.annualSalary with
       | none => .invalid "Annual salary required for hiring impact"
       | some s =>
         if s = 0 then .invalid "Annual salary required for hiring impact"
         else .hiringImpact s) := rfl
  have hc : routeDispatch "custom" params =
      (match params.bind RouteParams.question with
       | none => .invalid "Question required for custom insight"
       | some q =>
         if q = "" then .invalid "Question required for custom insight"
         else .custom q) := rfl
  refine ⟨?_, ?_, ?_, ?_⟩
  · rintro (h | h) <;> rw [hh, h]
    simp
  · intro s hs hs0
    rw [hh, hs]
    simp [hs0]
  · rintro (h | h) <;> rw [hc, h]
    simp
  · intro q hq hq0
    rw [hc, hq]
    simp [hq0]

/-- Witness for the amended claim C8: an absent salary and a zero salary are
rejected, a nonzero salary proceeds, an empty question is rejected and a
nonempty question proceeds. -/
theorem claim8_witness :
    routeDispatch "hiring_impact" none =
      Dispatch.invalid "Annual salary required for hiring impact"
    ∧ routeDispatch "hiring_impact" (some ⟨some 70000, none⟩) = Dispatch.hiringImpact 70000
    ∧ routeDispatch "custom" (some ⟨none, some ""⟩) =
        Dispatch.invalid "Question required for custom insight"
    ∧ routeDispatch "custom" (some ⟨none, some "Can I afford this?"⟩) =
        Dispatch.custom "Can I afford this?" :=
  ⟨(claim8_param_validation none).1 (Or.inl rfl),
   (claim8_param_validation (some ⟨some 70000, none⟩)).2.1 70000 rfl (by norm_num),
   (claim8_param_validation (some ⟨none, some ""⟩)).2.2.1 (Or.inr rfl),
   (claim8_param_validation (some ⟨none, some "Can I afford this?"⟩)).2.2.2 _ rfl
     (by decide)⟩
